import Mathlib

/-!
Verification development for the jsqlon repository (src/jsqlon/database.py).

The code keeps an SQLite database file (`self.path`, the "live store") in sync
with a JSON text backup (`self.path + ".json"`).  The pure decision logic,
statement building, DDL parsing and the JSON-tree codec are shallowly embedded
below, translated function by function from `database.py`.  External
collaborators (the SQLite engine, the filesystem, the Python runtime's salted
string hash) are represented by explicit parameters, as the spec treats them:
"run statement(s) transactionally", file-existence/mtime observations, and a
per-run hash seed.
-/

/--
Model of the Python values that can appear in the JSON backup and in row data:
`None`, booleans, integers, floats, strings, lists and (insertion-ordered)
dictionaries.  A float is carried as its decimal rendering, since the code only
ever turns floats into text via `str(val)`; no float arithmetic occurs anywhere
in the repository.
-/
inductive PyVal where
  | null
  | bool (b : Bool)
  | int (n : Int)
  | float (r : String)
  | str (s : String)
  | arr (xs : List PyVal)
  | obj (kvs : List (String × PyVal))

/-- Ordered dictionary with string keys, the shape of a row in `database.py`. -/
def PyDict := List (String × PyVal)

mutual
/--
Model of CPython `repr` on the JSON-representable values above, used by
`hash_of_storable` through `str(data)`.  Dict and list delimiters and separators
follow CPython; the repr of a string is modelled as the single-quoted body
without escape processing (the repository only feeds this to the hash, where
only determinism in the input matters).
-/
def pyReprVal : PyVal → String
  | .null => "None"
  | .bool b => if b then "True" else "False"
  | .int n => toString n
  | .float r => r
  | .str s => "'" ++ s ++ "'"
  | .arr xs => "[" ++ pyReprList xs ++ "]"
  | .obj kvs => "\x7b" ++ pyReprPairs kvs ++ "\x7d"

/-- Comma-separated reprs of a list's elements, as inside a Python list repr. -/
def pyReprList : List PyVal → String
  | [] => ""
  | [x] => pyReprVal x
  | x :: y :: rest => pyReprVal x ++ ", " ++ pyReprList (y :: rest)

/-- Comma-separated `'key': value` reprs, as inside a Python dict repr. -/
def pyReprPairs : List (String × PyVal) → String
  | [] => ""
  | [kv] => "'" ++ kv.1 ++ "': " ++ pyReprVal kv.2
  | kv :: kv2 :: rest =>
      "'" ++ kv.1 ++ "': " ++ pyReprVal kv.2 ++ ", " ++ pyReprPairs (kv2 :: rest)
end

/--
Model of CPython `str()` on these values: identical to `repr` except that a
string renders as its own characters.  This is what an f-string interpolation
such as the `DEFAULT` clause in `column_spec_from_data` performs.
-/
def pyStrV : PyVal → String
  | .str s => s
  | v => pyReprVal v

/-!
Reconciliation policy (`Database.__enter__` / `__exit__`,
`maybe_load_backup`, `maybe_save_backup`, `backup_is_newer`,
`backup_is_older`, lines 30-35, 74-86, 132-145, 243-251 of database.py).

The filesystem observations the methods make during one reconciliation pass
are collected in `FsState`: existence of the two files, their modification
times, and whether `backup_is_same()` holds (the fingerprints of the live
store and the backup agree).  `backup_is_same` itself compares two hashes
computed in the current run; for the policy claims only its boolean outcome
matters, so it is a field here.
-/

/-- Pass-level observations: file existence, mtimes, fingerprint equality. -/
structure FsState where
  db_exists : Bool
  backup_exists : Bool
  db_mtime : Int
  backup_mtime : Int
  same_hash : Bool

/--
Translation of `Database.backup_is_newer` (database.py lines 243-246): false
when the fingerprints agree, otherwise compares modification times strictly.
-/
def backup_is_newer (s : FsState) : Bool :=
  if s.same_hash then false
  else decide (s.backup_mtime > s.db_mtime)

/--
Translation of `Database.backup_is_older` (database.py lines 248-251): false
when `backup_is_newer` holds, otherwise compares modification times strictly.
Note that the fingerprint check is only reached through `backup_is_newer`;
no direct `backup_is_same` guard protects the save direction.
-/
def backup_is_older (s : FsState) : Bool :=
  if backup_is_newer s then false
  else decide (s.backup_mtime < s.db_mtime)

/--
Translation of `Database.maybe_load_backup` (database.py lines 74-86),
returning whether `load_backup` (a restore) fires on enter: never when the
backup is absent; unconditionally when the live store is absent; otherwise
exactly when `backup_is_newer`.
-/
def maybe_load_backup (s : FsState) : Bool :=
  if ¬ s.backup_exists then false
  else if ¬ s.db_exists then true
  else backup_is_newer s

/--
Translation of `Database.maybe_save_backup` (database.py lines 132-145),
returning whether `save_backup` (a refresh) fires on exit, given the
`recovered` flag set by `load_backup`: never when recovered; unconditionally
when no backup exists; otherwise exactly when `backup_is_older`.
-/
def maybe_save_backup (s : FsState) (recovered : Bool) : Bool :=
  if recovered then false
  else if ¬ s.backup_exists then true
  else backup_is_older s

/--
One reconciliation pass (`with Database(...)`): the enter step decides the
restore, `load_backup` records `self.recovered = True` when it ran
(database.py line 72), and the exit step consults that flag.  Result:
(restore fired, refresh fired).
-/
def reconcilePass (s : FsState) : Bool × Bool :=
  let restore := maybe_load_backup s
  let refresh := maybe_save_backup s restore
  (restore, refresh)

/--
Claim C1, as stated, is false: with both files present and equal fingerprints,
no restore fires on enter, but when the backup's modification time is strictly
below the live store's the exit step still refreshes the backup, because
`backup_is_older` consults the fingerprint only through `backup_is_newer` and
then falls through to the raw timestamp comparison.  Concrete input: both
files exist, fingerprints equal, live-store mtime 1, backup mtime 0.
-/
theorem C1_counterexample :
    ∃ s : FsState, s.db_exists = true ∧ s.backup_exists = true ∧
      s.same_hash = true ∧ reconcilePass s ≠ (false, false) :=
  ⟨⟨true, true, 1, 0, true⟩, rfl, rfl, rfl, by decide⟩

/--
Claim C1 (amended): in a reconciliation pass with both files present and
equal fingerprints, no restore fires on enter regardless of timestamps, and
the exit step refreshes the backup exactly when the backup's modification
time is strictly less than the live store's — content equality suppresses the
restore direction but not the refresh direction.
-/
theorem C1_amended (s : FsState) (hdb : s.db_exists = true)
    (hbk : s.backup_exists = true) (hsame : s.same_hash = true) :
    (reconcilePass s).1 = false ∧
      ((reconcilePass s).2 = true ↔ s.backup_mtime < s.db_mtime) := by
  rcases s with ⟨db, bk, dm, bm, sm⟩
  cases hdb; cases hbk; cases hsame
  simp [reconcilePass, maybe_load_backup, maybe_save_backup,
    backup_is_newer, backup_is_older]

/-- Witness for C1_amended at the concrete state used in the counterexample. -/
theorem C1_witness :
    (reconcilePass ⟨true, true, 1, 0, true⟩).1 = false ∧
      ((reconcilePass ⟨true, true, 1, 0, true⟩).2 = true ↔ (0 : Int) < 1) :=
  C1_amended ⟨true, true, 1, 0, true⟩ rfl rfl rfl

/--
Claim C2, as stated, is false in the equal-timestamp case: with both files
present, differing fingerprints, and equal modification times (so the live
store is not strictly older than the backup), the code performs no refresh,
because `backup_is_older` requires the backup's mtime to be strictly less
than the live store's.  Concrete input: both files exist, fingerprints
differ, both mtimes 0 — the pass does nothing in either direction.
-/
theorem C2_counterexample :
    ∃ s : FsState, s.db_exists = true ∧ s.backup_exists = true ∧
      s.same_hash = false ∧ s.db_mtime = s.backup_mtime ∧
      (reconcilePass s).2 = false :=
  ⟨⟨true, true, 0, 0, false⟩, rfl, rfl, rfl, rfl, by decide⟩

/--
Claim C2 (amended): with both files present, differing fingerprints, and the
live store's modification time not strictly older than the backup's, no
restore occurs, and the exit step refreshes the backup exactly when the live
store's modification time is strictly newer; in particular, with equal
modification times neither a restore nor a refresh fires.
-/
theorem C2_amended (s : FsState) (hdb : s.db_exists = true)
    (hbk : s.backup_exists = true) (hsame : s.same_hash = false)
    (hm : s.backup_mtime ≤ s.db_mtime) :
    (reconcilePass s).1 = false ∧
      ((reconcilePass s).2 = true ↔ s.backup_mtime < s.db_mtime) := by
  rcases s with ⟨db, bk, dm, bm, sm⟩
  cases hdb; cases hbk; cases hsame
  simp only at hm
  constructor
  · simp [reconcilePass, maybe_load_backup, backup_is_newer]
    omega
  · simp [reconcilePass, maybe_load_backup, maybe_save_backup,
      backup_is_newer, backup_is_older]
    omega

/-- Witness for C2_amended at a concrete state with the live store newer. -/
theorem C2_witness :
    (reconcilePass ⟨true, true, 5, 2, false⟩).1 = false ∧
      ((reconcilePass ⟨true, true, 5, 2, false⟩).2 = true ↔ (2 : Int) < 5) :=
  C2_amended ⟨true, true, 5, 2, false⟩ rfl rfl rfl (by decide)

/--
Claim C5: within a single reconciliation pass, restore and refresh never both
occur — when the restore fires on enter, `load_backup` marks the session
recovered and `maybe_save_backup` returns immediately, so the exit refresh is
suppressed unconditionally.
-/
theorem C5_restore_suppresses_refresh (s : FsState)
    (h : (reconcilePass s).1 = true) : (reconcilePass s).2 = false := by
  rcases s with ⟨db, bk, dm, bm, sm⟩
  simp [reconcilePass, maybe_save_backup] at *
  simp [h]

/-- Witness for C5 at a state where the restore fires (live store absent). -/
theorem C5_witness : (reconcilePass ⟨false, true, 0, 0, false⟩).2 = false :=
  C5_restore_suppresses_refresh ⟨false, true, 0, 0, false⟩ (by decide)

/-!
DDL parser (`Database.as_storable_dict`, database.py lines 88-123): the
per-statement parsing of `CREATE TABLE <name> (<col_defs>);` text read from
`sqlite_master`.  The regular expression used by the code is
`^CREATE TABLE (\w+) \((.*)\);?$` applied after joining the lines of the
statement with single spaces; `.` never meets a newline because the join has
removed them all, so the pattern matches exactly when the text is the literal
prefix `CREATE TABLE `, a nonempty run of word characters, the literal ` (`,
any body, and a final `)` or `);`.  Word characters are modelled as ASCII
alphanumerics plus underscore.
-/

/-- ASCII model of the word characters matched by the pattern's name group. -/
def isWordChar (c : Char) : Bool := c.isAlphanum || c = '_'

/-- Whitespace recognised by Python `str.split()` and `str.strip()`. -/
def pyIsSpace (c : Char) : Bool :=
  c = ' ' || c = '\t' || c = '\n' || c = '\r' || c = '\x0b' || c = '\x0c'

/-- Split a character list at every character satisfying `p`, keeping empty
pieces, as Python `str.split(sep)` does for a one-character separator. -/
def splitOnPred (p : Char → Bool) : List Char → List (List Char)
  | [] => [[]]
  | x :: xs =>
      match splitOnPred p xs with
      | [] => [[]]
      | h :: t => if p x then [] :: h :: t else (x :: h) :: t

/-- Join pieces with a single separator character, as `sep.join(pieces)`. -/
def joinWithChar (c : Char) : List (List Char) → List Char
  | [] => []
  | [l] => l
  | l :: l2 :: rest => l ++ c :: joinWithChar c (l2 :: rest)

/-- Translation of the line normalisation `' '.join(sql.split('\n'))` from
`as_storable_dict` (database.py line 96). -/
def pyNormalize (s : String) : String :=
  String.mk (joinWithChar ' ' (splitOnPred (fun c => c = '\n') s.data))

/-- Python `str.split()` with no separator: split on whitespace runs and drop
the empty pieces. -/
def pysplitChars (s : List Char) : List (List Char) :=
  (splitOnPred pyIsSpace s).filter (fun l => !l.isEmpty)

/-- Python `str.strip()`: remove leading and trailing whitespace. -/
def pyStrip (s : List Char) : List Char :=
  ((s.dropWhile pyIsSpace).reverse.dropWhile pyIsSpace).reverse

/-- Substring test, the model of Python's `in` operator on strings. -/
def hasSubChars (needle : List Char) : List Char → Bool
  | [] => needle.isEmpty
  | x :: xs => needle.isPrefixOf (x :: xs) || hasSubChars needle xs

/-- Remove a literal leading piece, failing when it is not there. -/
def chopLit (pre s : List Char) : Option (List Char) :=
  if pre.isPrefixOf s then some (s.drop pre.length) else none

/--
Model of matching `^CREATE TABLE (\w+) \((.*)\);?$` against a single line
(no newline characters), returning the two captured groups.  The name group
is the maximal word-character run after the literal prefix (backtracking
cannot help, because a shorter run leaves a word character where the literal
space is required), and the greedy body group ends just before the final
`)` or `);`.
-/
def matchCreate (s : List Char) : Option (List Char × List Char) :=
  match chopLit "CREATE TABLE ".data s with
  | none => none
  | some rest =>
      let name := rest.takeWhile isWordChar
      let rest2 := rest.dropWhile isWordChar
      if name.isEmpty then none
      else
        match chopLit " (".data rest2 with
        | none => none
        | some rest3 =>
            match rest3.reverse with
            | ';' :: ')' :: bodyRev => some (name, bodyRev.reverse)
            | ')' :: bodyRev => some (name, bodyRev.reverse)
            | _ => none

/--
Column description built by the parser and consumed by the statement builder:
the keyword arguments of `column_spec_from_data` (database.py lines 187-189).
`as_storable_dict` itself never produces a `default` (its regex scan does not
recognise `DEFAULT` clauses), but the backup file format and the builder both
carry one, so the model includes it.
-/
structure ColSpec where
  datatype : String
  default : Option PyVal
  not_null : Bool
  unique : Bool
  primary_key : Bool
  autoincrement : Bool

/-- Failure cases of the schema parsing in `as_storable_dict`: the bare
`Exception` raised when the pattern does not match (line 115), and the
`ValueError` Python raises at `n, t = cdata.split()[:2]` when a fragment has
fewer than two tokens (line 102).  The spec's taxonomy folds both into its
SchemaParseError. -/
inductive ParseErr where
  | malformed (sql : String)
  | unpack

/-- Boolean success test for `Except` results. -/
def exceptOk {ε α : Type} : Except ε α → Bool
  | .ok _ => true
  | .error _ => false

/--
Translation of the per-fragment work in `as_storable_dict` (database.py lines
101-112): the first two whitespace tokens are name and datatype, the flags are
set by literal substring scans of the fragment, and fewer than two tokens is
the unpack failure.  The flag scans are of the whole (stripped) fragment, in
the source's order of dictionary insertion: not_null, unique, autoincrement,
primary_key.
-/
def parseColumn (cdata : List Char) : Except ParseErr (String × ColSpec) :=
  match pysplitChars cdata with
  | n :: t :: _ =>
      .ok (String.mk n,
        { datatype := String.mk t
          default := none
          not_null := hasSubChars "NOT NULL".data cdata
          unique := hasSubChars "UNIQUE".data cdata
          primary_key := hasSubChars "PRIMARY KEY".data cdata
          autoincrement := hasSubChars "AUTOINCREMENT".data cdata })
  | _ => .error .unpack

/-- Python dict insertion on an ordered association list: an existing key
keeps its position and takes the new value, a new key goes to the end. -/
def dictInsert {α : Type} (kvs : List (String × α)) (k : String) (v : α) :
    List (String × α) :=
  if kvs.any (fun kv => kv.1 = k) then
    kvs.map (fun kv => if kv.1 = k then (k, v) else kv)
  else kvs ++ [(k, v)]

/-- Parse the column fragments left to right, stopping at the first failure,
as the list-building loop in `as_storable_dict` does. -/
def parseColumns : List (List Char) → Except ParseErr (List (String × ColSpec))
  | [] => .ok []
  | f :: t =>
      match parseColumn f with
      | .error e => .error e
      | .ok kv =>
          match parseColumns t with
          | .error e => .error e
          | .ok rest => .ok (kv :: rest)

/--
Translation of the parsing of one `sqlite_master` entry in
`as_storable_dict` (database.py lines 94-115): normalise the line, match the
pattern, split the column list on commas, strip each fragment, and parse the
fragments in order into the ordered column dictionary.
-/
def parse_table (sql : String) :
    Except ParseErr (String × List (String × ColSpec)) :=
  let sql1 := pyNormalize sql
  match matchCreate sql1.data with
  | none => .error (.malformed sql1)
  | some (name, body) =>
      let frags := (splitOnPred (fun c => c = ',') body).map pyStrip
      match parseColumns frags with
      | .error e => .error e
      | .ok cols =>
          .ok (String.mk name,
            cols.foldl (fun acc kv => dictInsert acc kv.1 kv.2) [])

/-- Success of `parseColumn` is exactly the two-token condition. -/
theorem parseColumn_isOk (f : List Char) :
    exceptOk (parseColumn f) = true ↔ 2 ≤ (pysplitChars f).length := by
  unfold parseColumn
  rcases h : pysplitChars f with _ | ⟨a, _ | ⟨b, t⟩⟩ <;> simp [exceptOk]

/-- Success of parsing all fragments is exactly the two-token condition on
every fragment. -/
theorem parseColumns_isOk (l : List (List Char)) :
    exceptOk (parseColumns l) = true ↔
      ∀ f ∈ l, 2 ≤ (pysplitChars f).length := by
  induction l with
  | nil => simp [parseColumns, exceptOk]
  | cons f t ih =>
      unfold parseColumns
      rcases hf : parseColumn f with e | v
      · have hbad : ¬ 2 ≤ (pysplitChars f).length := by
          intro hc
          have h2 := (parseColumn_isOk f).2 hc
          rw [hf] at h2; simp [exceptOk] at h2
        constructor
        · intro h; simp [exceptOk] at h
        · intro h; exact absurd (h f (by simp)) hbad
      · have hgood : 2 ≤ (pysplitChars f).length :=
          (parseColumn_isOk f).1 (by rw [hf]; rfl)
        rcases ht : parseColumns t with e2 | vs
        · rw [ht] at ih
          constructor
          · intro h; simp [exceptOk] at h
          · intro h
            have h3 : exceptOk (Except.error e2 : Except ParseErr (List (String × ColSpec))) = true :=
              ih.2 (fun g hg => h g (by simp [hg]))
            simp [exceptOk] at h3
        · rw [ht] at ih
          constructor
          · intro _ g hg
            rcases (List.mem_cons).1 hg with hg | hg
            · subst hg; exact hgood
            · exact (ih.1 rfl) g hg
          · intro _; simp [exceptOk]

/-- Unfolding equation for `parse_table` when the pattern does not match. -/
theorem parse_table_eq_none {sql : String}
    (h : matchCreate (pyNormalize sql).data = none) :
    parse_table sql = .error (.malformed (pyNormalize sql)) := by
  simp only [parse_table]
  rw [h]

/-- Unfolding equation for `parse_table` when the pattern matches. -/
theorem parse_table_eq_some {sql : String} {name body : List Char}
    (h : matchCreate (pyNormalize sql).data = some (name, body)) :
    parse_table sql =
      (match parseColumns ((splitOnPred (fun c => c = ',') body).map pyStrip) with
        | .error e => .error e
        | .ok cols =>
            .ok (String.mk name,
              cols.foldl (fun acc kv => dictInsert acc kv.1 kv.2) [])) := by
  simp only [parse_table]
  rw [h]

/--
Claim C6: the DDL parser fails — with the bare `Exception` or the unpack
`ValueError`, the two failures the spec's taxonomy folds into its
SchemaParseError — exactly when the outer `CREATE TABLE <name> (<col_defs>);`
pattern does not match the normalised statement, or some comma-separated
column fragment has fewer than two whitespace-separated tokens.
-/
theorem C6_parse_failure_iff (sql : String) :
    exceptOk (parse_table sql) = false ↔
      (matchCreate (pyNormalize sql).data = none ∨
        ∃ name body, matchCreate (pyNormalize sql).data = some (name, body) ∧
          ∃ frag ∈ (splitOnPred (fun c => c = ',') body).map pyStrip,
            (pysplitChars frag).length < 2) := by
  rcases hm : matchCreate (pyNormalize sql).data with _ | ⟨name, body⟩
  · rw [parse_table_eq_none hm]
    simp [exceptOk]
  · rcases hp : parseColumns ((splitOnPred (fun c => c = ',') body).map pyStrip)
      with e | cols
    · rw [parse_table_eq_some hm, hp]
      constructor
      · intro _
        right
        refine ⟨name, body, rfl, ?_⟩
        by_contra hc
        push_neg at hc
        have h2 := (parseColumns_isOk
          ((splitOnPred (fun c => c = ',') body).map pyStrip)).2 hc
        rw [hp] at h2
        simp [exceptOk] at h2
      · intro _
        simp [exceptOk]
    · rw [parse_table_eq_some hm, hp]
      constructor
      · intro hfalse
        simp [exceptOk] at hfalse
      · rintro (hnone | ⟨name2, body2, hsome, frag, hfrag, hlen⟩)
        · exact Option.noConfusion hnone
        · have h12 : (name, body) = (name2, body2) := Option.some.inj hsome
          cases h12
          have hall := (parseColumns_isOk
            ((splitOnPred (fun c => c = ',') body).map pyStrip)).1 (by rw [hp]; rfl)
          have := hall frag hfrag
          omega

/-!
Statement builder (`Database.column_spec_from_data`,
`create_statement_from_data`, `insert_statement_from_data`,
`populate_from_data`, database.py lines 179-220).
-/

/--
Translation of `Database.column_spec_from_data` (database.py lines 187-201).
The `default` parameter is a Python value with `None` as the absent sentinel,
exactly as the keyword argument works: a backup column without a `default`
key and one whose `default` is JSON null both arrive here as `None` and
render nothing.  The f-string interpolation of the default uses `str(val)`.
-/
def column_spec_from_data (name datatype : String) (default : PyVal)
    (not_null unique primary_key autoincrement : Bool) : String :=
  let s := name ++ " " ++ datatype
  let s := match default with
    | .null => s
    | v => s ++ " DEFAULT " ++ pyStrV v
  let s := if not_null then s ++ " NOT NULL" else s
  let s := if unique then s ++ " UNIQUE" else s
  if primary_key then
    let s2 := s ++ " PRIMARY KEY"
    if autoincrement then s2 ++ " AUTOINCREMENT" else s2
  else s

/--
Translation of `Database.create_statement_from_data` (database.py lines
179-182): render every column in order and join with a comma and space.
A column dictionary's missing `default` key becomes the `None` sentinel.
-/
def create_statement_from_data (name : String)
    (columns : List (String × ColSpec)) : String :=
  "CREATE TABLE " ++ name ++ " (" ++
    String.intercalate ", " (columns.map (fun kv =>
      column_spec_from_data kv.1 kv.2.datatype (kv.2.default.getD .null)
        kv.2.not_null kv.2.unique kv.2.primary_key kv.2.autoincrement))
    ++ ");"

/-- Python `val.replace('"', '""')` wrapped in double quotes, the text-value
rendering of `insert_statement_from_data` (database.py lines 214-216). -/
def doubleQuote (s : String) : String :=
  "\"" ++
    String.mk (s.data.foldr
      (fun c acc => (if c = '"' then ['"', '"'] else [c]) ++ acc) [])
    ++ "\""

/-- Null test on a Python value, the `data[k] is None` check. -/
def isNullV : PyVal → Bool
  | .null => true
  | _ => false

/--
Rendering of one value in the insert loop (database.py lines 211-218).
Python's `isinstance(val, (int, float))` also accepts booleans, because
`bool` is a subtype of `int`: `True` renders as the bare literal `True`.
Strings are quoted with embedded quotes doubled; everything else (None,
lists, dictionaries) reaches the `ValueError` branch.
-/
def renderInsertVal : PyVal → Option String
  | .bool b => some (if b then "True" else "False")
  | .int n => some (toString n)
  | .float r => some r
  | .str s => some (doubleQuote s)
  | _ => none

/-- Left-to-right rendering of the value list, stopping at the first
unsupported value as the raising loop does. -/
def renderVals : List PyVal → Except String (List String)
  | [] => .ok []
  | v :: rest =>
      match renderInsertVal v with
      | none => .error "unknown type inserted into db."
      | some s =>
          match renderVals rest with
          | .error e => .error e
          | .ok ss => .ok (s :: ss)

/-- Assembly of the insert statement from the already-filtered mapping:
column names joined with a bare comma, values with comma and space
(database.py lines 209-220). -/
def renderInsertCore (name : String) (data : List (String × PyVal)) :
    Except String String :=
  let cols := String.intercalate "," (data.map (fun kv => kv.1))
  match renderVals (data.map (fun kv => kv.2)) with
  | .error e => .error e
  | .ok vs =>
      .ok ("INSERT INTO " ++ name ++ " (" ++ cols ++ ") VALUES (" ++
        String.intercalate ", " vs ++ ");")

/--
Translation of `Database.insert_statement_from_data` (database.py lines
203-220): work on a copy of the row, delete the keys whose value is `None`
(a filter that keeps the order of the remaining pairs), then assemble the
statement.
-/
def insert_statement_from_data (name : String)
    (data : List (String × PyVal)) : Except String String :=
  renderInsertCore name (data.filter (fun kv => !(isNullV kv.2)))

/-- Translation of `Database.populate_from_data` (database.py lines 184-185):
one insert statement per row, in row order, failing at the first bad row. -/
def populate_from_data (name : String) :
    List (List (String × PyVal)) → Except String (List String)
  | [] => .ok []
  | r :: rest =>
      match insert_statement_from_data name r with
      | .error e => .error e
      | .ok s =>
          match populate_from_data name rest with
          | .error e => .error e
          | .ok ss => .ok (s :: ss)

/--
Rendering of one column written from the words of spec section 4.2, for
comparison with the source translation: name and datatype, then in this
fixed order `DEFAULT <value>` if present, `NOT NULL`, `UNIQUE`,
`PRIMARY KEY`, and `AUTOINCREMENT` immediately after only when primaryKey
is also set.
-/
def column_render_specside (name datatype : String) (default : PyVal)
    (not_null unique primary_key autoincrement : Bool) : String :=
  name ++ " " ++ datatype
    ++ (match default with
        | .null => ""
        | v => " DEFAULT " ++ pyStrV v)
    ++ (if not_null then " NOT NULL" else "")
    ++ (if unique then " UNIQUE" else "")
    ++ (if primary_key then " PRIMARY KEY" else "")
    ++ (if primary_key && autoincrement then " AUTOINCREMENT" else "")

/-- Columns of the spec's concrete `users` scenario, as `as_storable_dict`
would produce them from the live store. -/
def usersColumns : List (String × ColSpec) :=
  [("id", { datatype := "INTEGER", default := none, not_null := false,
            unique := false, primary_key := true, autoincrement := true }),
   ("name", { datatype := "TEXT", default := none, not_null := true,
              unique := true, primary_key := false, autoincrement := false })]

/--
Claim C7: every column renders as its name and datatype followed, in the
spec's fixed order, by the DEFAULT clause, NOT NULL, UNIQUE, PRIMARY KEY and
— only together with PRIMARY KEY — AUTOINCREMENT; and the `users` example
produces exactly the statement of the spec's concrete scenario.
-/
theorem C7_create_statement (name datatype : String) (default : PyVal)
    (not_null unique primary_key autoincrement : Bool) :
    column_spec_from_data name datatype default
        not_null unique primary_key autoincrement =
      column_render_specside name datatype default
        not_null unique primary_key autoincrement ∧
    create_statement_from_data "users" usersColumns =
      "CREATE TABLE users (id INTEGER PRIMARY KEY AUTOINCREMENT, name TEXT NOT NULL UNIQUE);" := by
  constructor
  · cases default <;> cases not_null <;> cases unique <;>
      cases primary_key <;> cases autoincrement <;>
      simp [column_spec_from_data, column_render_specside, String.append_assoc]
  · rfl

/--
Claim C8, as stated, is false for booleans: a boolean is a value of a kind
outside {integer, float, text, null}, yet the builder does not fail on it —
Python's `isinstance(val, (int, float))` accepts `bool` as an `int` subtype,
so `True` renders as a bare literal.
-/
theorem C8_counterexample :
    insert_statement_from_data "t" [("a", PyVal.bool true)] =
      .ok "INSERT INTO t (a) VALUES (True);" := by rfl

/-- Values on which the insert loop raises: lists and dictionaries (and, via
the earlier deletion, `None` never reaches the loop). -/
def isUnsupportedV : PyVal → Bool
  | .arr _ => true
  | .obj _ => true
  | _ => false

/-- Characterisation of the values the insert loop cannot render. -/
theorem renderInsertVal_none_iff (v : PyVal) :
    renderInsertVal v = none ↔ (isNullV v = true ∨ isUnsupportedV v = true) := by
  cases v <;> simp [renderInsertVal, isNullV, isUnsupportedV]

/-- Failure of the value-rendering loop is exactly the presence of an
unrenderable value. -/
theorem renderVals_isOk (l : List PyVal) :
    exceptOk (renderVals l) = false ↔ ∃ v ∈ l, renderInsertVal v = none := by
  induction l with
  | nil => simp [renderVals, exceptOk]
  | cons v rest ih =>
      unfold renderVals
      rcases hv : renderInsertVal v with _ | s
      · exact ⟨fun _ => ⟨v, by simp, hv⟩, fun _ => rfl⟩
      · rcases hr : renderVals rest with e | ss
        · rw [hr] at ih
          constructor
          · intro _
            rcases ih.1 rfl with ⟨x, hx, hnone⟩
            exact ⟨x, by simp [hx], hnone⟩
          · intro _; rfl
        · rw [hr] at ih
          constructor
          · intro hfalse; simp [exceptOk] at hfalse
          · rintro ⟨x, hx, hnone⟩
            rcases List.mem_cons.1 hx with hx | hx
            · subst hx; rw [hv] at hnone; cases hnone
            · have := ih.2 ⟨x, hx, hnone⟩
              simp [exceptOk] at this

/--
Claim C8 (amended): the insert builder drops every null-valued column from
both the column list and the value list, renders integers and floats as bare
literals, renders text quoted with each embedded quote doubled (`O"Brien`
becomes `"O""Brien"`), renders a boolean — a value outside the data model's
{integer, float, text, null} — as a bare `True`/`False` literal instead of
failing, because Python `bool` is an `int` subtype, and fails with the
unsupported-value error exactly when some non-null value is a list or an
object.
-/
theorem C8_amended (name : String) (data : List (String × PyVal)) :
    insert_statement_from_data name data =
        insert_statement_from_data name
          (data.filter (fun kv => !(isNullV kv.2))) ∧
    (exceptOk (insert_statement_from_data name data) = false ↔
        ∃ kv ∈ data, isNullV kv.2 = false ∧ isUnsupportedV kv.2 = true) ∧
    insert_statement_from_data "p" [("n", PyVal.str "O\"Brien")] =
      .ok "INSERT INTO p (n) VALUES (\"O\"\"Brien\");" ∧
    insert_statement_from_data "users"
        [("id", PyVal.int 1), ("name", PyVal.str "Alice")] =
      .ok "INSERT INTO users (id,name) VALUES (1, \"Alice\");" ∧
    insert_statement_from_data "t" [("x", PyVal.bool false), ("y", PyVal.null)] =
      .ok "INSERT INTO t (x) VALUES (False);" := by
  refine ⟨?_, ?_, rfl, rfl, rfl⟩
  · simp [insert_statement_from_data, List.filter_filter]
  · simp only [insert_statement_from_data, renderInsertCore]
    rcases h : renderVals
        ((data.filter (fun kv => !(isNullV kv.2))).map (fun kv => kv.2))
      with e | vs
    all_goals rw [h]
    · constructor
      · intro _
        have hex := (renderVals_isOk _).1 (by rw [h]; rfl)
        rcases hex with ⟨v, hv, hnone⟩
        rcases List.mem_map.1 hv with ⟨kv, hkv, rfl⟩
        have hf := List.mem_filter.1 hkv
        have hnn : isNullV kv.2 = false := by
          have h2 := hf.2; simpa using h2
        have hun : isUnsupportedV kv.2 = true := by
          rcases (renderInsertVal_none_iff kv.2).1 hnone with hn | hu
          · rw [hnn] at hn; cases hn
          · exact hu
        exact ⟨kv, hf.1, hnn, hun⟩
      · intro _; rfl
    · constructor
      · intro hfalse; simp [exceptOk] at hfalse
      · rintro ⟨kv, hkv, hnn, hun⟩
        have hmem : kv ∈ data.filter (fun kv => !(isNullV kv.2)) :=
          List.mem_filter.2 ⟨hkv, by simp [hnn]⟩
        have hv : kv.2 ∈
            (data.filter (fun kv => !(isNullV kv.2))).map (fun kv => kv.2) :=
          List.mem_map.2 ⟨kv, hmem, rfl⟩
        have hnone : renderInsertVal kv.2 = none :=
          (renderInsertVal_none_iff kv.2).2 (.inr hun)
        have hbad := (renderVals_isOk _).2 ⟨kv.2, hv, hnone⟩
        rw [h] at hbad
        simp [exceptOk] at hbad

/-!
Backup codec.  `save_backup` (database.py lines 125-130) writes
`json.dump(self.as_storable_dict(), ...)` and `load_backup` /
`backed_up_hash` read it back with `json.load`; both sides of the text layer
are CPython's json module, which preserves object member order (dictionaries
are insertion-ordered).  The repository-determined content is the tree shape
of the document, modelled here: `encodeDoc` maps the typed document to the
JSON value tree exactly as `as_storable_dict` lays out its dictionaries
(each table is `dict(rows=..., columns=...)`, each column a dictionary of
the recognised keys with flags present only when true), and `decodeDoc`
reads a tree back, interpreting the keys the way the keyword binding of
`create_statement_from_data` / `column_spec_from_data` does.
-/

/-- Table entry of the storable dictionary: `dict(rows=..., columns=...)`
(database.py line 113), with rows and columns in their original order. -/
structure TableData where
  rows : List (List (String × PyVal))
  columns : List (String × ColSpec)

/-- Python dict key lookup on an ordered association list. -/
def dictLookup {α : Type} (kvs : List (String × α)) (k : String) : Option α :=
  match kvs with
  | [] => none
  | (k2, v) :: rest => if k2 = k then some v else dictLookup rest k

/--
Encoding of one column specification as its backup dictionary, with the
keys in the insertion order of `as_storable_dict` (datatype first, then
not_null, unique, autoincrement, primary_key when set).  `as_storable_dict`
itself never inserts a `default` key — its scan does not parse DEFAULT
clauses — but `json.dump` writes every key a column dictionary has, and
the backup format recognises `default`, so a document carrying one encodes
it (placed last).
-/
def encodeCol (c : ColSpec) : PyVal :=
  .obj ([("datatype", PyVal.str c.datatype)]
    ++ (if c.not_null then [("not_null", PyVal.bool true)] else [])
    ++ (if c.unique then [("unique", PyVal.bool true)] else [])
    ++ (if c.autoincrement then [("autoincrement", PyVal.bool true)] else [])
    ++ (if c.primary_key then [("primary_key", PyVal.bool true)] else [])
    ++ (match c.default with
        | some v => [("default", v)]
        | none => []))

/-- Keyword names `column_spec_from_data` accepts; any other key in a column
dictionary is a TypeError at the call (the method has no kwargs sink). -/
def colKeyAllowed (k : String) : Bool :=
  k = "datatype" || k = "default" || k = "not_null" || k = "unique" ||
    k = "primary_key" || k = "autoincrement"

/-- Read an optional boolean flag: an absent key is false (the keyword
default), a boolean is itself, anything else is outside the typed model. -/
def getFlag (kvs : List (String × PyVal)) (k : String) : Option Bool :=
  match dictLookup kvs k with
  | none => some false
  | some (.bool b) => some b
  | some _ => none

/-- Decoding of one column dictionary back into a `ColSpec`: requires the
`datatype` key (it has no keyword default) to hold text, keeps a present
`default` value verbatim (present-and-null and absent stay distinguishable
in the dictionary, as they do through `json`), and reads the four flags. -/
def decodeCol : PyVal → Option ColSpec
  | .obj kvs =>
      if kvs.all (fun kv => colKeyAllowed kv.1) then
        match dictLookup kvs "datatype" with
        | some (.str d) =>
            match getFlag kvs "not_null", getFlag kvs "unique",
                getFlag kvs "primary_key", getFlag kvs "autoincrement" with
            | some nn, some uq, some pk, some ai =>
                some { datatype := d, default := dictLookup kvs "default",
                       not_null := nn, unique := uq, primary_key := pk,
                       autoincrement := ai }
            | _, _, _, _ => none
        | _ => none
      else none
  | _ => none

/-- Encoding of one table: the `dict(rows=..., columns=...)` of
`as_storable_dict`, rows first as in the source's insertion order. -/
def encodeTable (t : TableData) : PyVal :=
  .obj [("rows", PyVal.arr (t.rows.map PyVal.obj)),
        ("columns", PyVal.obj (t.columns.map (fun kv => (kv.1, encodeCol kv.2))))]

/-- Decoding of one row: any JSON object, its pairs kept in order. -/
def decodeRow : PyVal → Option (List (String × PyVal))
  | .obj kvs => some kvs
  | _ => none

/-- Decode every element of a JSON array, in order, failing on the first
undecodable element. -/
def decodeList {α : Type} (f : PyVal → Option α) :
    List PyVal → Option (List α)
  | [] => some []
  | v :: rest =>
      match f v with
      | none => none
      | some a =>
          match decodeList f rest with
          | none => none
          | some rest2 => some (a :: rest2)

/-- Decode every value of a JSON object, keeping keys and their order. -/
def decodePairs {α : Type} (f : PyVal → Option α) :
    List (String × PyVal) → Option (List (String × α))
  | [] => some []
  | kv :: rest =>
      match f kv.2 with
      | none => none
      | some a =>
          match decodePairs f rest with
          | none => none
          | some rest2 => some ((kv.1, a) :: rest2)

/-- Decoding of one table dictionary: the `rows` array and the `columns`
object, read the way `load_backup` passes them on; extra keys are ignored
as the kwargs sinks of `create_statement_from_data` and
`populate_from_data` do. -/
def decodeTable : PyVal → Option TableData
  | .obj kvs =>
      match dictLookup kvs "rows", dictLookup kvs "columns" with
      | some (.arr rvs), some (.obj cvs) =>
          match decodeList decodeRow rvs, decodePairs decodeCol cvs with
          | some rows, some cols => some ⟨rows, cols⟩
          | _, _ => none
      | _, _ => none
  | _ => none

/-- Encoding of a whole backup document: one object, one member per table,
in table order. -/
def encodeDoc (doc : List (String × TableData)) : PyVal :=
  .obj (doc.map (fun kv => (kv.1, encodeTable kv.2)))

/-- Decoding of a whole backup document. -/
def decodeDoc : PyVal → Option (List (String × TableData))
  | .obj kvs => decodePairs decodeTable kvs
  | _ => none

/-- Round trip for one column dictionary. -/
theorem decodeCol_encodeCol (c : ColSpec) : decodeCol (encodeCol c) = some c := by
  rcases c with ⟨d, df, nn, uq, pk, ai⟩
  cases nn <;> cases uq <;> cases pk <;> cases ai <;> rcases df with _ | v <;>
    simp [encodeCol, decodeCol, colKeyAllowed, getFlag, dictLookup]

/-- Round trip for an array of encoded elements. -/
theorem decodeList_map {α : Type} (f : PyVal → Option α) (g : α → PyVal)
    (h : ∀ x, f (g x) = some x) (l : List α) :
    decodeList f (l.map g) = some l := by
  induction l with
  | nil => rfl
  | cons x rest ih => simp [decodeList, h x, ih]

/-- Round trip for an object of encoded values. -/
theorem decodePairs_map {α : Type} (f : PyVal → Option α) (g : α → PyVal)
    (h : ∀ x, f (g x) = some x) (l : List (String × α)) :
    decodePairs f (l.map (fun kv => (kv.1, g kv.2))) = some l := by
  induction l with
  | nil => rfl
  | cons kv rest ih => simp [decodePairs, h kv.2, ih]

/-- Round trip for one table. -/
theorem decodeTable_encodeTable (t : TableData) :
    decodeTable (encodeTable t) = some t := by
  rcases t with ⟨rows, cols⟩
  simp [encodeTable, decodeTable, dictLookup,
    decodeList_map decodeRow PyVal.obj (fun r => rfl) rows,
    decodePairs_map decodeCol encodeCol decodeCol_encodeCol cols]

/--
Claim C9: decoding an encoded backup document yields a document structurally
identical to the original — the table order, the column order within each
table, the row order, every column's datatype, flags and default, and every
row's pairs round-trip exactly.  The text layer between the two trees is
CPython's `json.dump`/`json.load` on the same tree, which preserves object
member order.
-/
theorem C9_roundtrip (doc : List (String × TableData)) :
    decodeDoc (encodeDoc doc) = some doc := by
  simp [encodeDoc, decodeDoc,
    decodePairs_map decodeTable encodeTable decodeTable_encodeTable doc]

/-!
Transactional loader: `Database.execute_sql` (database.py lines 160-177) and
the statement phase of `Database.load_backup` (lines 49-72).  The SQLite
engine is the external collaborator: `exec1` is the effect of one statement
on an abstract store, with failing statements raising.  When `execute_sql`
gets a list it wraps the whole batch in one transaction inside `with conn:`,
which commits on success and rolls the store back on an exception before the
exception propagates — so one batch is atomic.  `load_backup`, however,
issues one batch for all the create statements and then a separate
`execute_sql` call per table for that table's insert statements.
-/

/-- Sequential execution of a batch, stopping at the first failing
statement. -/
def runBatch {σ : Type} (exec1 : String → σ → Except String σ) :
    List String → σ → Except String σ
  | [], st => .ok st
  | c :: cs, st =>
      match exec1 c st with
      | .error e => .error e
      | .ok st2 => runBatch exec1 cs st2

/-- Translation of `Database.execute_sql` on a statement list (database.py
lines 160-177): one transaction around the batch; on failure the store is
rolled back to the pre-batch state and the error propagates.  Result: the
store afterwards and the error, if any. -/
def execute_sql {σ : Type} (exec1 : String → σ → Except String σ)
    (cmds : List String) (st : σ) : σ × Option String :=
  match runBatch exec1 cmds st with
  | .ok st2 => (st2, none)
  | .error e => (st, some e)

/-- Building of all per-table insert lists before any of them runs (the list
comprehension at database.py line 67), itself able to raise while rendering
a row value. -/
def buildPopulates :
    List (String × TableData) → Except String (List (List String))
  | [] => .ok []
  | t :: ts =>
      match populate_from_data t.1 t.2.rows with
      | .error e => .error e
      | .ok stmts =>
          match buildPopulates ts with
          | .error e => .error e
          | .ok rest => .ok (stmts :: rest)

/-- The loop at database.py lines 68-69: each table's insert list is its own
`execute_sql` call, stopping at the first failing batch. -/
def runTables {σ : Type} (exec1 : String → σ → Except String σ) :
    List (List String) → σ → σ × Option String
  | [], st => (st, none)
  | b :: bs, st =>
      match execute_sql exec1 b st with
      | (st2, some e) => (st2, some e)
      | (st2, none) => runTables exec1 bs st2

/-- Statement-application phase of `Database.load_backup` (database.py lines
61-69): the create batch, then the insert batches table by table. -/
def load_backup_exec {σ : Type} (exec1 : String → σ → Except String σ)
    (doc : List (String × TableData)) (st : σ) : σ × Option String :=
  let creates := doc.map (fun kv => create_statement_from_data kv.1 kv.2.columns)
  match execute_sql exec1 creates st with
  | (st1, some e) => (st1, some e)
  | (st1, none) =>
      match buildPopulates doc with
      | .error e => (st1, some e)
      | .ok pops => runTables exec1 pops st1

/-- Log store: a store whose state is the list of committed statements, with
a chosen set of statements failing.  Instantiates the abstract engine for
concrete demonstrations. -/
def logExec (fails : String → Bool) (c : String) (st : List String) :
    Except String (List String) :=
  if fails c then .error ("operational error: " ++ c) else .ok (st ++ [c])

/-- One-column integer column specification for the concrete documents. -/
def colInt : ColSpec :=
  { datatype := "INTEGER", default := none, not_null := false,
    unique := false, primary_key := false, autoincrement := false }

/-- Two-table document used to exhibit the batching structure of a restore. -/
def twoTableDoc : List (String × TableData) :=
  [("a", { rows := [[("x", PyVal.int 1)]], columns := [("x", colInt)] }),
   ("b", { rows := [[("y", PyVal.int 2)]], columns := [("y", colInt)] })]

/--
Claim C3, as stated, is false: a restore is not one transaction.  With two
tables and an engine on which table b's insert statement fails, the restore
reports the failure, yet the store afterwards differs from the initial
store — both create statements and table a's insert are committed, because
they ran in earlier, already-committed `execute_sql` batches.
-/
theorem C3_counterexample :
    ((load_backup_exec
        (logExec (fun c => c = "INSERT INTO b (y) VALUES (2);"))
        twoTableDoc ([] : List String)).2.isSome = true) ∧
    (load_backup_exec
        (logExec (fun c => c = "INSERT INTO b (y) VALUES (2);"))
        twoTableDoc ([] : List String)).1 ≠ [] := by
  constructor
  · rfl
  · decide

/--
Claim C3 (amended): each single `execute_sql` batch is atomic — when the
batch fails, the store afterwards is exactly the pre-batch store and the
error is surfaced — but a restore issues one such batch for the create
statements and a separate batch per table for the inserts, so a failure in a
later batch leaves the earlier batches applied: with two tables and table
b's insert failing, the final store holds both creates and table a's insert,
whatever the starting store was.
-/
theorem C3_amended :
    (∀ (σ : Type) (exec1 : String → σ → Except String σ)
        (cmds : List String) (st : σ),
      (execute_sql exec1 cmds st).2.isSome = true →
        (execute_sql exec1 cmds st).1 = st) ∧
    (∀ st : List String,
      load_backup_exec
          (logExec (fun c => c = "INSERT INTO b (y) VALUES (2);"))
          twoTableDoc st =
        (st ++ ["CREATE TABLE a (x INTEGER);", "CREATE TABLE b (y INTEGER);",
                "INSERT INTO a (x) VALUES (1);"],
         some "operational error: INSERT INTO b (y) VALUES (2);")) := by
  constructor
  · intro σ exec1 cmds st h
    unfold execute_sql at *
    rcases hb : runBatch exec1 cmds st with e | st2
    · rfl
    · rw [hb] at h; simp at h
  · intro st
    have h1 : load_backup_exec
        (logExec (fun c => c = "INSERT INTO b (y) VALUES (2);"))
        twoTableDoc st =
        (((st ++ ["CREATE TABLE a (x INTEGER);"]) ++
            ["CREATE TABLE b (y INTEGER);"]) ++
          ["INSERT INTO a (x) VALUES (1);"],
         some "operational error: INSERT INTO b (y) VALUES (2);") := rfl
    rw [h1]
    simp

/-- Witness for the atomicity half of C3_amended, at a one-statement batch
that fails on the log store. -/
theorem C3_witness :
    (execute_sql (logExec (fun c => c = "X")) ["X"] ([] : List String)).1 =
      ([] : List String) :=
  C3_amended.1 (List String) (logExec (fun c => c = "X")) ["X"] [] (by decide)

/-!
Content fingerprint.  `Database.hash_of_storable` (database.py lines 222-224)
is `hash(str(data))`: CPython's builtin hash applied to the textual rendering
of the storable dictionary.  Since Python 3.3 the builtin hash of text is
salted with a per-process seed (PYTHONHASHSEED), so it is a function of the
seed and the text, not of the text alone.  The runtime hash is the external
collaborator here; its model below is deterministic in (seed, text) and
varies with the seed — the two properties the spec's fingerprint discussion
turns on.  Within one run, `backup_is_same` (lines 234-235) compares two
digests computed under the same seed.
-/

/-- Model of CPython's salted text hash: a polynomial rolling hash of the
characters, offset by the per-run seed. -/
def pyHashStr (seed : Nat) (s : String) : Nat :=
  (s.data.foldl (fun a c => (a * 1000003 + c.toNat) % (2 ^ 61 - 1)) 0 + seed)
    % (2 ^ 61 - 1)

/-- Translation of `Database.hash_of_storable` (database.py lines 222-224):
`hash(str(data))` under the run's hash seed. -/
def hash_of_storable (seed : Nat) (data : PyVal) : Nat :=
  pyHashStr seed (pyReprVal data)

/-- Translation of `Database.backup_is_same` (database.py lines 234-235),
given the storable dictionaries of the live store and the backup: both
digests are computed in the current run, under the same seed. -/
def backup_is_same_model (seed : Nat) (live backup : PyVal) : Bool :=
  decide (hash_of_storable seed live = hash_of_storable seed backup)

/--
Claim C4 is right about the requirement and the code violates it: the digest
is `hash(str(data))`, and the salted runtime hash gives the same document
different digests under different per-run seeds — here the empty storable
dictionary under seeds 0 and 1.  (Each single run stays internally
consistent, because `backup_is_same` compares two digests computed under the
current run's seed; the fingerprint is never persisted.)
-/
theorem C4_seed_dependent :
    hash_of_storable 0 (encodeDoc []) ≠ hash_of_storable 1 (encodeDoc []) := by
  decide

/-!
Frame property of the insert builder.  `insert_statement_from_data` begins
with `data = dict(**data)` (database.py line 205), allocating a fresh
dictionary, and its deletion loop mutates only that copy.  To make mutation
expressible at all, the dictionaries live in an explicit heap: a reference
is an index into the heap's cell list, the builder takes its row by
reference, and the theorem states the caller's cell is untouched.  Had the
code aliased the argument instead of copying (`data_local = data`), the
deletion would have hit the caller's cell and the theorem would fail.
-/

/-- Heap of dictionaries; a reference is an index into the cell list. -/
structure PyHeap where
  cells : List (List (String × PyVal))

/-- Read a reference (an out-of-range read yields the empty dictionary). -/
def readRef (h : PyHeap) (r : Nat) : List (String × PyVal) :=
  (h.cells[r]?).getD []

/-- Overwrite a reference in place. -/
def writeRef (h : PyHeap) (r : Nat) (d : List (String × PyVal)) : PyHeap :=
  ⟨h.cells.set r d⟩

/-- Allocate a fresh dictionary, returning the new heap and the reference. -/
def allocRef (h : PyHeap) (d : List (String × PyVal)) : PyHeap × Nat :=
  (⟨h.cells ++ [d]⟩, h.cells.length)

/-- Heap-level translation of `Database.insert_statement_from_data`
(database.py lines 203-220): read the argument row, allocate the copy
`dict(**data)`, delete the null-valued keys from the copy in place, and
render the statement from the copy.  Returns the heap afterwards and the
result. -/
def insert_statement_heap (h : PyHeap) (name : String) (dataRef : Nat) :
    PyHeap × Except String String :=
  let d := readRef h dataRef
  let ar := allocRef h d
  let h1 := ar.1
  let r := ar.2
  let d1 := (readRef h1 r).filter (fun kv => !(isNullV kv.2))
  let h2 := writeRef h1 r d1
  (h2, renderInsertCore name (readRef h2 r))

/--
Claim C10: building an insertion statement never mutates its input — for
every allocated row reference, the caller's cell reads the same after the
call as before, even though the null-valued columns are removed from the
statement; and the result agrees with the pure translation applied to the
caller's row.
-/
theorem C10_no_input_mutation (h : PyHeap) (name : String) (dataRef : Nat)
    (hvalid : dataRef < h.cells.length) :
    readRef (insert_statement_heap h name dataRef).1 dataRef =
        readRef h dataRef ∧
      (insert_statement_heap h name dataRef).2 =
        insert_statement_from_data name (readRef h dataRef) := by
  have hne : h.cells.length ≠ dataRef := Nat.ne_of_gt hvalid
  have hcopy : (h.cells ++ [readRef h dataRef])[h.cells.length]? =
      some (readRef h dataRef) :=
    List.getElem?_concat_length h.cells (readRef h dataRef)
  constructor
  · show ((((h.cells ++ [readRef h dataRef]).set h.cells.length
        ((((h.cells ++ [readRef h dataRef])[h.cells.length]?).getD []).filter
          (fun kv => !(isNullV kv.2))))[dataRef]?).getD []) = readRef h dataRef
    rw [List.getElem?_set_ne hne, List.getElem?_append_left hvalid]
    rfl
  · show renderInsertCore name
        ((((h.cells ++ [readRef h dataRef]).set h.cells.length
            ((((h.cells ++ [readRef h dataRef])[h.cells.length]?).getD []).filter
              (fun kv => !(isNullV kv.2))))[h.cells.length]?).getD []) =
      insert_statement_from_data name (readRef h dataRef)
    rw [hcopy]
    have hlt : h.cells.length < (h.cells ++ [readRef h dataRef]).length := by
      simp
    rw [List.getElem?_set_eq_of_lt _ hlt]
    rfl

/-- Witness for C10_no_input_mutation on a one-cell heap holding a row with
a null column. -/
theorem C10_witness :
    readRef (insert_statement_heap ⟨[[("a", PyVal.int 7), ("b", PyVal.null)]]⟩
        "t" 0).1 0 =
      readRef ⟨[[("a", PyVal.int 7), ("b", PyVal.null)]]⟩ 0 ∧
    (insert_statement_heap ⟨[[("a", PyVal.int 7), ("b", PyVal.null)]]⟩
        "t" 0).2 =
      insert_statement_from_data "t"
        (readRef ⟨[[("a", PyVal.int 7), ("b", PyVal.null)]]⟩ 0) :=
  C10_no_input_mutation ⟨[[("a", PyVal.int 7), ("b", PyVal.null)]]⟩ "t" 0
    (by decide)
